import Mathlib

/-!
Shallow embedding of the CK3-Character-History-Generator desktop shell
(two Rust entry points: `src/src-tauri/src/main.rs` and
`src/ui/src-tauri/src/main.rs`).  Each variant's `setup` closure resolves a
bundled sidecar binary, spawns it as a child process, and (in the src-tauri
variant only) forwards the child's stdout lines to the log and registers a
window-event handler that kills the child when the window is destroyed.
-/

namespace CK3Shell

/-- Events delivered on the sidecar's event channel
(`tauri::api::process::CommandEvent`). -/
inductive CommandEvent
  | stdout (line : String)
  | stderr (line : String)
  | error (message : String)
  | terminated (code : Option Int)
deriving DecidableEq

/-- Window lifecycle events delivered by the framework (`tauri::WindowEvent`).
The source's handler matches `Destroyed` and ignores everything else. -/
inductive WindowEvent
  | resized
  | moved
  | closeRequested
  | destroyed
  | focused
  | scaleFactorChanged
  | themeChanged
deriving DecidableEq

/-- The async output-forwarding loop of `src/src-tauri/src/main.rs` lines
23-29: `while let Some(event) = rx.recv().await { if let
CommandEvent::Stdout(line) = event { println!("Engine: {}", line) } }`,
as a function from the finite stream of received events to the list of
lines written to the log sink. -/
def forwardLoop : List CommandEvent → List String
  | [] => []
  | CommandEvent.stdout line :: rest => ("Engine: " ++ line) :: forwardLoop rest
  | _ :: rest => forwardLoop rest

/-- The stdout payload of an event, if any. -/
def stdoutLine : CommandEvent → Option String
  | CommandEvent.stdout line => some line
  | _ => none

/-- Whether an event is a stdout line. -/
def isStdoutEvent : CommandEvent → Bool
  | CommandEvent.stdout _ => true
  | _ => false

/-- State of the forwarding task: events still pending on the channel, and
the lines already written to the sink. -/
structure ForwardState where
  pending : List CommandEvent
  sink : List String
deriving DecidableEq

/-- One iteration of the `while let` loop: `rx.recv().await` yields the next
pending event (`none` when the channel is closed, which exits the loop);
a stdout event appends its prefixed line to the sink. -/
def forwardStep (s : ForwardState) : Option ForwardState :=
  match s.pending with
  | [] => none
  | CommandEvent.stdout line :: rest => some ⟨rest, s.sink ++ ["Engine: " ++ line]⟩
  | _ :: rest => some ⟨rest, s.sink⟩

/-- Run the forwarding loop for at most `n` iterations; the loop stops by
itself as soon as `forwardStep` returns `none` (channel closed). -/
def forwardRun : Nat → ForwardState → ForwardState
  | 0, s => s
  | n + 1, s =>
    match forwardStep s with
    | none => s
    | some s2 => forwardRun n s2

/-- The error taxonomy of the sidecar lifecycle: binary resolution can fail
(`sidecarNotFound`), the OS can refuse process creation (`spawnError`), and
the OS can refuse the kill request (`terminationError`). -/
inductive ProcError
  | sidecarNotFound
  | spawnError
  | terminationError
deriving DecidableEq

/-- Facts about the platform that are external to the shell: whether a
matching sidecar executable is bundled for the current platform, and
whether the OS accepts the process-creation request. -/
structure Env where
  sidecarBundled : Bool
  osAllowsSpawn : Bool
deriving DecidableEq

/-- Binary resolution (`Command::new_sidecar` / `shell.sidecar`): succeeds
exactly when a matching executable is bundled for the current platform. -/
def newSidecar (env : Env) : Except ProcError Unit :=
  if env.sidecarBundled then Except.ok () else Except.error ProcError.sidecarNotFound

/-- The OS process-creation call behind `.spawn()`: succeeds exactly when
the OS accepts the request. -/
def osSpawn (env : Env) : Except ProcError Unit :=
  if env.osAllowsSpawn then Except.ok () else Except.error ProcError.spawnError

/-- The observable actions a setup closure performs, in order.
`spawnAttempt created` records one OS process-creation call and whether it
produced a child process; `panicAbort` records an `.expect` firing, which
aborts application startup. -/
inductive Action
  | getWindow
  | resolveSidecar
  | spawnAttempt (created : Bool)
  | spawnForwardTask
  | registerHandler
  | panicAbort (msg : String)
deriving DecidableEq

/-- The setup closure of `src/src-tauri/src/main.rs` lines 11-41: get the
main window, resolve the `ck3-engine` sidecar and spawn it (each step's
`.expect` panicking on failure), then spawn the async forwarding task and
register the window-event handler.  Returns the trace of actions performed
and the outcome (`Except.error` carries the error kind and the panic
message of the `.expect` that fired). -/
def setupSrcTauri (env : Env) : List Action × Except (ProcError × String) Unit :=
  match newSidecar env with
  | Except.error e =>
      ([Action.getWindow, Action.resolveSidecar,
        Action.panicAbort "failed to create `ck3-engine` binary command"],
       Except.error (e, "failed to create `ck3-engine` binary command"))
  | Except.ok _ =>
      match osSpawn env with
      | Except.error e =>
          ([Action.getWindow, Action.resolveSidecar, Action.spawnAttempt false,
            Action.panicAbort "Failed to spawn sidecar"],
           Except.error (e, "Failed to spawn sidecar"))
      | Except.ok _ =>
          ([Action.getWindow, Action.resolveSidecar, Action.spawnAttempt true,
            Action.spawnForwardTask, Action.registerHandler],
           Except.ok ())

/-- The setup closure of `src/ui/src-tauri/src/main.rs` lines 7-27, in a
packaged (release) build where the `cfg(not(debug_assertions))` block is
active: resolve the `api_server` sidecar and spawn it, each `.expect`
panicking on failure.  No forwarding task is spawned and no window-event
handler is registered; the child runs for the app lifetime. -/
def setupUi (env : Env) : List Action × Except (ProcError × String) Unit :=
  match newSidecar env with
  | Except.error e =>
      ([Action.resolveSidecar,
        Action.panicAbort "api_server sidecar not found in bundle"],
       Except.error (e, "api_server sidecar not found in bundle"))
  | Except.ok _ =>
      match osSpawn env with
      | Except.error e =>
          ([Action.resolveSidecar, Action.spawnAttempt false,
            Action.panicAbort "failed to spawn api_server sidecar"],
           Except.error (e, "failed to spawn api_server sidecar"))
      | Except.ok _ =>
          ([Action.resolveSidecar, Action.spawnAttempt true], Except.ok ())

/-- The two entry-point variants present in the repository. -/
inductive Variant
  | srcTauri
  | ui
deriving DecidableEq

/-- The trace of actions performed by a variant's setup closure. -/
def setupTrace (v : Variant) (env : Env) : List Action :=
  match v with
  | Variant.srcTauri => (setupSrcTauri env).1
  | Variant.ui => (setupUi env).1

/-- The outcome of a variant's setup closure. -/
def setupRes (v : Variant) (env : Env) : Except (ProcError × String) Unit :=
  match v with
  | Variant.srcTauri => (setupSrcTauri env).2
  | Variant.ui => (setupUi env).2

/-- Whether setup completed without a panic. -/
def setupOk (v : Variant) (env : Env) : Bool :=
  match setupRes v env with
  | Except.ok _ => true
  | Except.error _ => false

/-- The error kind with which setup failed, if it failed. -/
def failureKind (v : Variant) (env : Env) : Option ProcError :=
  match setupRes v env with
  | Except.error (k, _) => some k
  | Except.ok _ => none

/-- Whether the setup closure registered a window-event handler. -/
def handlerRegistered (v : Variant) (env : Env) : Bool :=
  (setupTrace v env).contains Action.registerHandler

/-- Number of OS process-creation calls in a trace (attempts, successful
or not). -/
def spawnAttempts (t : List Action) : Nat :=
  t.countP fun a =>
    match a with
    | Action.spawnAttempt _ => true
    | _ => false

/-- Number of child OS processes actually created in a trace. -/
def processesCreated (t : List Action) : Nat :=
  t.countP fun a =>
    match a with
    | Action.spawnAttempt created => created
    | _ => false

/-- Number of `.expect` panics in a trace. -/
def panicCount (t : List Action) : Nat :=
  t.countP fun a =>
    match a with
    | Action.panicAbort _ => true
    | _ => false

/-- The closure registered by `window.on_window_event` in
`src/src-tauri/src/main.rs` lines 32-38, as a pure description of its
effect on one event: whether it issues a kill on the captured child handle,
and which lines it prints.  Only `Destroyed` triggers anything; every other
event hits the `_ => {}` arm. -/
def onWindowEventHandler (event : WindowEvent) : Bool × List String :=
  match event with
  | WindowEvent.destroyed => (true, ["Window destroyed, killing sidecar..."])
  | _ => (false, [])

/-- Observable state of one application run after setup: whether the child
process is still running, how many kill requests have been issued on the
handle, whether the application process has exited, and the panic message
if a panic aborted it. -/
structure RunState where
  childAlive : Bool
  killCount : Nat
  appClosed : Bool
  panicMsg : Option String
deriving DecidableEq

/-- Event-loop processing for the src-tauri variant after a successful
setup.  `ks` says whether the OS accepts the kill request.  On `Destroyed`
the registered handler runs: it issues `child.kill()`; on success the child
is gone, on failure the `.expect` panics with "Failed to kill sidecar".
The destroyed event is terminal for the window, so no later events are
delivered and the application process exits either way (a panic aborts it,
a normal return lets the event loop finish); the run therefore stops
there.  Every other event hits the handler's `_ => {}` arm. -/
def processEvents (ks : Bool) (s : RunState) : List WindowEvent → RunState
  | [] => s
  | WindowEvent.destroyed :: _ =>
      if ks then
        { childAlive := false, killCount := s.killCount + 1,
          appClosed := true, panicMsg := none }
      else
        { childAlive := s.childAlive, killCount := s.killCount + 1,
          appClosed := true, panicMsg := some "Failed to kill sidecar" }
  | _ :: rest => processEvents ks s rest

/-- Event-loop processing for the ui variant after a successful setup: no
window-event handler was registered, so no event ever touches the child;
the destroyed event still ends the run (the window is gone). -/
def processEventsUi (s : RunState) : List WindowEvent → RunState
  | [] => s
  | WindowEvent.destroyed :: _ => { s with appClosed := true }
  | _ :: rest => processEventsUi s rest

/-- A whole run of a variant: setup under the platform facts `env`, then
the window events `evs` delivered by the framework.  A setup panic aborts
the application before any event is processed (no child survives: either
none was created, or the OS refused to create it). -/
def runVariant (v : Variant) (env : Env) (ks : Bool)
    (evs : List WindowEvent) : RunState :=
  match setupRes v env with
  | Except.error (_, msg) =>
      { childAlive := false, killCount := 0, appClosed := true, panicMsg := some msg }
  | Except.ok _ =>
      match v with
      | Variant.srcTauri =>
          processEvents ks
            { childAlive := true, killCount := 0, appClosed := false, panicMsg := none } evs
      | Variant.ui =>
          processEventsUi
            { childAlive := true, killCount := 0, appClosed := false, panicMsg := none } evs

/-- Runtime occurrences that can only happen after setup: the forwarding
task observing an output line, and a kill being issued on the handle. -/
inductive RuntimeEntry
  | outputObserved (line : String)
  | killIssued
deriving DecidableEq

/-- Entries of a whole-execution trace: setup actions followed by runtime
occurrences. -/
inductive TraceEntry
  | act (a : Action)
  | outputObserved (line : String)
  | killIssued
deriving DecidableEq

/-- Embed a runtime occurrence into the trace-entry type. -/
def RuntimeEntry.embed : RuntimeEntry → TraceEntry
  | RuntimeEntry.outputObserved line => TraceEntry.outputObserved line
  | RuntimeEntry.killIssued => TraceEntry.killIssued

/-- Whether a trace entry is an output observation or a kill. -/
def isObsOrKill : TraceEntry → Bool
  | TraceEntry.outputObserved _ => true
  | TraceEntry.killIssued => true
  | TraceEntry.act _ => false

/-- A whole-execution trace of the src-tauri variant: the setup actions in
program order, followed by an arbitrary interleaving `rt` of runtime
occurrences (output observations by the forwarding task, kills by the
window-event handler).  Runtime occurrences can only come from the task
and the handler that setup itself created, so they follow the setup
actions. -/
def fullTrace (env : Env) (rt : List RuntimeEntry) : List TraceEntry :=
  (setupTrace Variant.srcTauri env).map TraceEntry.act ++ rt.map RuntimeEntry.embed

/-! Helper lemmas shared by the claim theorems. -/

lemma setupOk_iff (v : Variant) (env : Env) :
    setupOk v env = true ↔ env.sidecarBundled = true ∧ env.osAllowsSpawn = true := by
  cases v <;> rcases env with ⟨b, s⟩ <;> cases b <;> cases s <;> decide

lemma processEvents_destroyed (ks : Bool) (evs : List WindowEvent) :
    ∀ s : RunState, WindowEvent.destroyed ∈ evs →
      processEvents ks s evs =
        if ks then
          { childAlive := false, killCount := s.killCount + 1,
            appClosed := true, panicMsg := none }
        else
          { childAlive := s.childAlive, killCount := s.killCount + 1,
            appClosed := true, panicMsg := some "Failed to kill sidecar" } := by
  induction evs with
  | nil => intro s h; cases h
  | cons e rest ih =>
    intro s h
    cases e <;>
      first
        | rfl
        | exact ih s (Or.resolve_left (List.mem_cons.mp h) (by decide))

lemma processEvents_no_destroyed (ks : Bool) (evs : List WindowEvent) :
    ∀ s : RunState, WindowEvent.destroyed ∉ evs → processEvents ks s evs = s := by
  induction evs with
  | nil => intro s _; rfl
  | cons e rest ih =>
    intro s h
    cases e <;>
      first
        | exact absurd (List.mem_cons_self _ _) h
        | exact ih s (fun hm => h (List.mem_cons_of_mem _ hm))

lemma processEvents_killCount_le (ks : Bool) (evs : List WindowEvent) :
    ∀ s : RunState, (processEvents ks s evs).killCount ≤ s.killCount + 1 := by
  induction evs with
  | nil => intro s; exact Nat.le_succ _
  | cons e rest ih =>
    intro s
    cases e <;>
      first
        | (cases ks <;> exact Nat.le_refl _)
        | exact ih s

lemma processEventsUi_state (evs : List WindowEvent) :
    ∀ s : RunState,
      (processEventsUi s evs).killCount = s.killCount ∧
      (processEventsUi s evs).childAlive = s.childAlive ∧
      (processEventsUi s evs).panicMsg = s.panicMsg := by
  induction evs with
  | nil => intro s; exact ⟨rfl, rfl, rfl⟩
  | cons e rest ih =>
    intro s
    cases e <;> first | exact ⟨rfl, rfl, rfl⟩ | exact ih s

lemma runVariant_srcTauri_ok (env : Env) (ks : Bool) (evs : List WindowEvent)
    (hok : setupOk Variant.srcTauri env = true) :
    runVariant Variant.srcTauri env ks evs =
      processEvents ks
        { childAlive := true, killCount := 0, appClosed := false, panicMsg := none } evs := by
  obtain ⟨b, s⟩ := env
  cases b <;> cases s
  · exact absurd hok (by decide)
  · exact absurd hok (by decide)
  · exact absurd hok (by decide)
  · rfl

lemma runVariant_ui_ok (env : Env) (ks : Bool) (evs : List WindowEvent)
    (hok : setupOk Variant.ui env = true) :
    runVariant Variant.ui env ks evs =
      processEventsUi
        { childAlive := true, killCount := 0, appClosed := false, panicMsg := none } evs := by
  obtain ⟨b, s⟩ := env
  cases b <;> cases s
  · exact absurd hok (by decide)
  · exact absurd hok (by decide)
  · exact absurd hok (by decide)
  · rfl

lemma forwardRun_drains (events : List CommandEvent) :
    ∀ sink : List String,
      forwardRun events.length ⟨events, sink⟩ = ⟨[], sink ++ forwardLoop events⟩ := by
  induction events with
  | nil => intro sink; simp [forwardRun, forwardLoop]
  | cons e rest ih =>
    intro sink
    cases e <;> simp [forwardRun, forwardStep, forwardLoop, ih]

/-! Claim theorems. -/

/-- Claim C2: for every finite sequence of events emitted by the child
process, the forwarding task writes to the log exactly the stdout lines of
the stream, each exactly once, in the order produced, with no line dropped
or duplicated, each prefixed with the fixed tag "Engine: " identifying the
sidecar as the source. -/
theorem c2_stdout_forwarded_exactly_once (events : List CommandEvent) :
    forwardLoop events =
      (events.filterMap stdoutLine).map (fun line => "Engine: " ++ line) := by
  induction events with
  | nil => rfl
  | cons e rest ih => cases e <;> simp [forwardLoop, stdoutLine, ih]

/-- Claim C8: for every finite event stream, the forwarding loop reaches,
after exactly as many iterations as there are events, the state in which
the stream is drained and the sink holds the forwarded lines, and the next
`recv` returns `none` so the loop exits by itself — total termination with
no cancellation signal. -/
theorem c8_forwarding_task_terminates (events : List CommandEvent) :
    forwardRun events.length ⟨events, []⟩ = ⟨[], forwardLoop events⟩ ∧
    forwardStep ⟨[], forwardLoop events⟩ = none := by
  refine ⟨?_, rfl⟩
  simpa using forwardRun_drains events []

/-- Claim C9: the forwarding task forwards only stdout events: an event
that is not a stdout line (stderr, error, terminated) contributes nothing
to the log sink — it is silently discarded. -/
theorem c9_non_stdout_events_discarded (e : CommandEvent)
    (rest : List CommandEvent) (h : isStdoutEvent e = false) :
    forwardLoop (e :: rest) = forwardLoop rest := by
  cases e
  case stdout line => simp [isStdoutEvent] at h
  all_goals rfl

/-- Witness for C9 at the concrete non-stdout event `terminated`. -/
theorem c9_witness :
    isStdoutEvent (CommandEvent.terminated (some 0)) = false ∧
    forwardLoop (CommandEvent.terminated (some 0) :: [CommandEvent.stdout "ready"]) =
      forwardLoop [CommandEvent.stdout "ready"] :=
  ⟨rfl, c9_non_stdout_events_discarded (CommandEvent.terminated (some 0))
    [CommandEvent.stdout "ready"] rfl⟩

/-- Claim C10: the registered window-event handler is a no-op for every
window event other than `Destroyed` (no kill issued, nothing printed), and
in a run whose events contain no `Destroyed` event the child is never
killed. -/
theorem c10_handler_noop_unless_destroyed (e : WindowEvent) (env : Env)
    (ks : Bool) (evs : List WindowEvent) (h : e ≠ WindowEvent.destroyed)
    (hevs : WindowEvent.destroyed ∉ evs) :
    onWindowEventHandler e = (false, []) ∧
    (runVariant Variant.srcTauri env ks evs).killCount = 0 := by
  constructor
  · cases e <;> first | rfl | exact absurd rfl h
  · obtain ⟨b, s⟩ := env
    cases b <;> cases s
    · rfl
    · rfl
    · rfl
    · rw [runVariant_srcTauri_ok ⟨true, true⟩ ks evs (by decide),
          processEvents_no_destroyed ks evs _ hevs]

/-- Witness for C10 at the concrete event `focused` and a run delivering
only a `resized` event. -/
theorem c10_witness :
    WindowEvent.focused ≠ WindowEvent.destroyed ∧
    WindowEvent.destroyed ∉ [WindowEvent.resized] ∧
    (onWindowEventHandler WindowEvent.focused = (false, []) ∧
     (runVariant Variant.srcTauri ⟨true, true⟩ true [WindowEvent.resized]).killCount = 0) :=
  ⟨by decide, by decide,
   c10_handler_noop_unless_destroyed WindowEvent.focused ⟨true, true⟩ true
     [WindowEvent.resized] (by decide) (by decide)⟩

/-- Claim C3: if spawn fails — because no matching bundled sidecar exists
(`sidecarNotFound`) or because the OS refuses process creation
(`spawnError`) — then in every variant application startup aborts: setup
fails with exactly one `.expect` panic carrying the error, the sidecar is
resolved exactly once and spawned at most once (no retry, no fallback). -/
theorem c3_spawn_failure_is_fatal (v : Variant) (env : Env)
    (h : env.sidecarBundled = false ∨ env.osAllowsSpawn = false) :
    setupOk v env = false ∧
    (failureKind v env).isSome = true ∧
    panicCount (setupTrace v env) = 1 ∧
    (setupTrace v env).count Action.resolveSidecar = 1 ∧
    spawnAttempts (setupTrace v env) ≤ 1 := by
  cases v <;> rcases env with ⟨b, s⟩ <;> cases b <;> cases s <;> revert h <;> decide

/-- Witness for C3 at the src-tauri variant with no bundled sidecar. -/
theorem c3_witness :
    ((⟨false, true⟩ : Env).sidecarBundled = false ∨
      (⟨false, true⟩ : Env).osAllowsSpawn = false) ∧
    (setupOk Variant.srcTauri ⟨false, true⟩ = false ∧
     (failureKind Variant.srcTauri ⟨false, true⟩).isSome = true ∧
     panicCount (setupTrace Variant.srcTauri ⟨false, true⟩) = 1 ∧
     (setupTrace Variant.srcTauri ⟨false, true⟩).count Action.resolveSidecar = 1 ∧
     spawnAttempts (setupTrace Variant.srcTauri ⟨false, true⟩) ≤ 1) :=
  ⟨Or.inl rfl, c3_spawn_failure_is_fatal Variant.srcTauri ⟨false, true⟩ (Or.inl rfl)⟩

/-- Claim C4: if the kill request fails during shutdown (`TerminationError`,
surfaced by the handler's `.expect` as the panic "Failed to kill sidecar"),
the application still ends up closed — the failure never blocks the
application from closing — while the child process stays alive (orphaned). -/
theorem c4_termination_failure_does_not_block_close (env : Env)
    (evs : List WindowEvent) (hok : setupOk Variant.srcTauri env = true)
    (hmem : WindowEvent.destroyed ∈ evs) :
    (runVariant Variant.srcTauri env false evs).appClosed = true ∧
    (runVariant Variant.srcTauri env false evs).panicMsg = some "Failed to kill sidecar" ∧
    (runVariant Variant.srcTauri env false evs).childAlive = true := by
  rw [runVariant_srcTauri_ok env false evs hok,
      processEvents_destroyed false evs _ hmem]
  exact ⟨rfl, rfl, rfl⟩

/-- Witness for C4: a run on a good platform whose window is destroyed and
whose kill request is refused. -/
theorem c4_witness :
    setupOk Variant.srcTauri ⟨true, true⟩ = true ∧
    WindowEvent.destroyed ∈ [WindowEvent.destroyed] ∧
    ((runVariant Variant.srcTauri ⟨true, true⟩ false [WindowEvent.destroyed]).appClosed = true ∧
     (runVariant Variant.srcTauri ⟨true, true⟩ false [WindowEvent.destroyed]).panicMsg =
       some "Failed to kill sidecar" ∧
     (runVariant Variant.srcTauri ⟨true, true⟩ false [WindowEvent.destroyed]).childAlive = true) :=
  ⟨by decide, by decide,
   c4_termination_failure_does_not_block_close ⟨true, true⟩ [WindowEvent.destroyed]
     (by decide) (by decide)⟩

/-- Claim C5: if no matching sidecar executable is bundled for the current
platform, setup fails with `sidecarNotFound` in every variant and the
spawn step is never reached: no OS process-creation call is made and no
child process is created. -/
theorem c5_sidecar_not_found_creates_no_process (v : Variant) (env : Env)
    (h : env.sidecarBundled = false) :
    failureKind v env = some ProcError.sidecarNotFound ∧
    spawnAttempts (setupTrace v env) = 0 ∧
    processesCreated (setupTrace v env) = 0 := by
  cases v <;> rcases env with ⟨b, s⟩ <;> cases b <;> cases s <;> revert h <;> decide

/-- Witness for C5 at the ui variant with no bundled sidecar. -/
theorem c5_witness :
    (⟨false, true⟩ : Env).sidecarBundled = false ∧
    (failureKind Variant.ui ⟨false, true⟩ = some ProcError.sidecarNotFound ∧
     spawnAttempts (setupTrace Variant.ui ⟨false, true⟩) = 0 ∧
     processesCreated (setupTrace Variant.ui ⟨false, true⟩) = 0) :=
  ⟨rfl, c5_sidecar_not_found_creates_no_process Variant.ui ⟨false, true⟩ rfl⟩

/-- Claim C6: in every variant, when setup succeeds the child process is
created exactly once during setup, and over any whole run the kill
operation is applied at most once to the handle. -/
theorem c6_one_child_at_most_one_kill (v : Variant) (env : Env) (ks : Bool)
    (evs : List WindowEvent) (hok : setupOk v env = true) :
    processesCreated (setupTrace v env) = 1 ∧
    (runVariant v env ks evs).killCount ≤ 1 := by
  constructor
  · cases v <;> rcases env with ⟨b, s⟩ <;> cases b <;> cases s <;> revert hok <;> decide
  · cases v
    · rw [runVariant_srcTauri_ok env ks evs hok]
      exact processEvents_killCount_le ks evs _
    · rw [runVariant_ui_ok env ks evs hok,
          (processEventsUi_state evs _).1]
      decide

/-- Witness for C6: the src-tauri variant on a good platform, one
destroyed event. -/
theorem c6_witness :
    setupOk Variant.srcTauri ⟨true, true⟩ = true ∧
    (processesCreated (setupTrace Variant.srcTauri ⟨true, true⟩) = 1 ∧
     (runVariant Variant.srcTauri ⟨true, true⟩ true [WindowEvent.destroyed]).killCount ≤ 1) :=
  ⟨by decide,
   c6_one_child_at_most_one_kill Variant.srcTauri ⟨true, true⟩ true
     [WindowEvent.destroyed] (by decide)⟩

/-- Claim C1 is false as stated: it asserts that in EVERY variant a
window-event handler is registered during setup and that a run containing
a `Destroyed` event applies the kill operation to the handle.  The ui
variant (`src/ui/src-tauri/src/main.rs`) registers no window-event handler
at all — its setup closure only spawns the sidecar and drops the handle —
so on a good platform a run whose window is destroyed issues zero kills. -/
theorem c1_counterexample :
    ¬ (handlerRegistered Variant.ui ⟨true, true⟩ = true ∧
       (runVariant Variant.ui ⟨true, true⟩ true [WindowEvent.destroyed]).killCount = 1) := by
  decide

/-- Claim C1 amended: in the src-tauri variant a window-event handler is
registered during setup, and every run in which a `Destroyed` event occurs
after setup completed applies the kill operation to the spawned child
handle exactly once; the ui variant registers no window-event handler and
never invokes kill. -/
theorem c1_amended_kill_on_destroy (env : Env) (ks : Bool)
    (evs : List WindowEvent) (hok : setupOk Variant.srcTauri env = true)
    (hmem : WindowEvent.destroyed ∈ evs) :
    handlerRegistered Variant.srcTauri env = true ∧
    (runVariant Variant.srcTauri env ks evs).killCount = 1 ∧
    handlerRegistered Variant.ui env = false ∧
    (runVariant Variant.ui env ks evs).killCount = 0 := by
  obtain ⟨b, s⟩ := env
  cases b <;> cases s
  · exact absurd hok (by decide)
  · exact absurd hok (by decide)
  · exact absurd hok (by decide)
  · refine ⟨by decide, ?_, by decide, ?_⟩
    · rw [runVariant_srcTauri_ok ⟨true, true⟩ ks evs (by decide),
          processEvents_destroyed ks evs _ hmem]
      cases ks <;> rfl
    · rw [runVariant_ui_ok ⟨true, true⟩ ks evs (by decide),
          (processEventsUi_state evs _).1]

/-- Witness for the amended C1: a good platform, one destroyed event. -/
theorem c1_witness :
    setupOk Variant.srcTauri ⟨true, true⟩ = true ∧
    WindowEvent.destroyed ∈ [WindowEvent.destroyed] ∧
    (handlerRegistered Variant.srcTauri ⟨true, true⟩ = true ∧
     (runVariant Variant.srcTauri ⟨true, true⟩ true [WindowEvent.destroyed]).killCount = 1 ∧
     handlerRegistered Variant.ui ⟨true, true⟩ = false ∧
     (runVariant Variant.ui ⟨true, true⟩ true [WindowEvent.destroyed]).killCount = 0) :=
  ⟨by decide, by decide,
   c1_amended_kill_on_destroy ⟨true, true⟩ true [WindowEvent.destroyed]
     (by decide) (by decide)⟩

/-- Claim C7: when setup succeeds in the src-tauri variant, the
whole-execution trace starts with the setup actions in program order —
the OS spawn (position 2) comes before the forwarding task is started
(position 3) and before the window-event handler is registered
(position 4) — and every output observation or kill occurs at a strictly
later position than the spawn, whatever the runtime interleaving. -/
theorem c7_spawn_happens_before (env : Env) (rt : List RuntimeEntry)
    (hok : setupOk Variant.srcTauri env = true) :
    fullTrace env rt =
      TraceEntry.act Action.getWindow :: TraceEntry.act Action.resolveSidecar ::
      TraceEntry.act (Action.spawnAttempt true) :: TraceEntry.act Action.spawnForwardTask ::
      TraceEntry.act Action.registerHandler :: rt.map RuntimeEntry.embed ∧
    (∀ j e, (fullTrace env rt).get? j = some e → isObsOrKill e = true → 2 < j) := by
  obtain ⟨b, s⟩ := env
  cases b <;> cases s
  · exact absurd hok (by decide)
  · exact absurd hok (by decide)
  · exact absurd hok (by decide)
  · refine ⟨rfl, ?_⟩
    intro j e hj he
    match j with
    | 0 =>
        injection hj with h
        subst h
        exact absurd he (by decide)
    | 1 =>
        injection hj with h
        subst h
        exact absurd he (by decide)
    | 2 =>
        injection hj with h
        subst h
        exact absurd he (by decide)
    | n + 3 => omega

/-- Witness for C7: a good platform and a sample runtime interleaving. -/
theorem c7_witness :
    setupOk Variant.srcTauri ⟨true, true⟩ = true ∧
    (fullTrace ⟨true, true⟩ [RuntimeEntry.outputObserved "ready", RuntimeEntry.killIssued] =
      TraceEntry.act Action.getWindow :: TraceEntry.act Action.resolveSidecar ::
      TraceEntry.act (Action.spawnAttempt true) :: TraceEntry.act Action.spawnForwardTask ::
      TraceEntry.act Action.registerHandler ::
      List.map RuntimeEntry.embed [RuntimeEntry.outputObserved "ready", RuntimeEntry.killIssued] ∧
     (∀ j e,
        (fullTrace ⟨true, true⟩
          [RuntimeEntry.outputObserved "ready", RuntimeEntry.killIssued]).get? j = some e →
        isObsOrKill e = true → 2 < j)) :=
  ⟨by decide,
   c7_spawn_happens_before ⟨true, true⟩
     [RuntimeEntry.outputObserved "ready", RuntimeEntry.killIssued] (by decide)⟩

end CK3Shell
